import Mathlib

/-!
Verification of the credential-lifecycle logic of the cuddly-nuxt
repository: password registration/login and WebAuthn (passkey)
registration/authentication, shallowly embedded from the TypeScript
server handlers.

Sources embedded:
  - server/utils/auth.ts            (registerSchema, loginSchema)
  - server/api/auth/register.post.ts
  - server/api/auth/login.post.ts   (second segment of server/api/auth/[...].ts)
  - server/api/auth/[...].ts         (credentials and webauthn authorize)
  - server/api/auth/webauthn/verify-registration.post.ts
  - server/api/auth/webauthn/auth-options.post.ts

External collaborators (argon2 hashing, zod email syntax, the
@simplewebauthn/server verification primitives, the options generator)
are not part of the repository; they are modelled from the spec and
are marked as such in their doc comments.
-/

deriving instance DecidableEq for Except

namespace CuddlyNuxt

/-- Modelled from the spec: the trusted password-hashing primitive
(argon2 in the source, consumed as a black box with the contract
hash(password) -> digest, verify(digest, password) -> bool, salted so
two hashes of the same password may differ). The digest is opaque to
the repository code: it is only ever produced by hashPassword and
consumed by verifyPassword. -/
structure PasswordHash where
  salt : Nat
  pw : String
deriving DecidableEq

/-- Modelled from the spec: argon2.hash. The salt argument stands for the
randomness argon2 folds into the digest. -/
def hashPassword (salt : Nat) (password : String) : PasswordHash :=
  ⟨salt, password⟩

/-- Modelled from the spec: argon2.verify — true exactly when the digest
was produced from this plaintext (for any salt). -/
def verifyPassword (hash : PasswordHash) (password : String) : Bool :=
  hash.pw = password

/-- A User row (prisma model User): unique email, optional display name,
optional password digest (null for passkey-only accounts). -/
structure User where
  id : Nat
  email : String
  name : Option String
  password : Option PasswordHash
  createdAt : Nat
deriving DecidableEq

/-- An Authenticator row (prisma model Authenticator): unique credential
identifier, public key, signature counter, transport hints, owning user. -/
structure Authenticator where
  id : Nat
  credentialID : List Nat
  credentialPublicKey : List Nat
  counter : Nat
  transports : List String
  userId : Nat
deriving DecidableEq

/-- The persistent state: the two tables plus id-generation and clock
state standing for the prisma cuid() and now() effects. -/
structure DB where
  users : List User
  authenticators : List Authenticator
  nextUserId : Nat
  nextAuthenticatorId : Nat
  now : Nat
deriving DecidableEq

/-- prisma.user.findUnique where email (email is a unique column). -/
def DB.findUserByEmail (db : DB) (email : String) : Option User :=
  db.users.find? (fun u => u.email = email)

/-- prisma.user.findUnique where id. -/
def DB.findUserById (db : DB) (id : Nat) : Option User :=
  db.users.find? (fun u => u.id = id)

/-- prisma.authenticator.findUnique where credentialID (unique column). -/
def DB.findAuthenticator (db : DB) (cid : List Nat) : Option Authenticator :=
  db.authenticators.find? (fun a => a.credentialID = cid)

/-- An h3 createError value: statusCode plus statusMessage. -/
structure ApiError where
  statusCode : Nat
  statusMessage : String
deriving DecidableEq

/-- Modelled from the spec: zod z.string().email() — a syntactically
valid address: one at-sign separating a nonempty local part from a
nonempty domain that contains a dot, and no spaces. -/
def emailValid (e : String) : Bool :=
  match e.toList.splitOn '@' with
  | [lp, dom] => !lp.isEmpty && !dom.isEmpty && dom.contains '.' && !e.toList.contains ' '
  | _ => false

/-- A JSON primitive, used to state schema checks that in the source run
on untyped request bodies (a field may be missing or not a string). -/
inductive JVal where
  | str (s : String)
  | num (n : Int)
  | bool (b : Bool)
  | null
deriving DecidableEq

/-- The raw body of a login request before validation. -/
structure LoginBody where
  email : Option JVal
  password : Option JVal
deriving DecidableEq

/-- loginSchema.safeParse from server/utils/auth.ts:
email must be a string that is a valid address, password must be a
string (no further constraint). zod reports the first failing field in
declaration order; the Except carries errors[0].message. -/
def loginSchemaSafeParse (b : LoginBody) : Except String (String × String) :=
  match b.email with
  | some (JVal.str e) =>
    if emailValid e then
      match b.password with
      | some (JVal.str p) => Except.ok (e, p)
      | some _ => Except.error "Expected string, received other"
      | none => Except.error "Required"
    else
      Except.error "Invalid email address"
  | some _ => Except.error "Expected string, received other"
  | none => Except.error "Required"

/-- The typed body of a register request. -/
structure RegisterBody where
  email : String
  password : String
  name : Option String
deriving DecidableEq

/-- registerSchema.safeParse from server/utils/auth.ts: valid email,
password at least 8 characters, optional name. -/
def registerSchemaSafeParse (b : RegisterBody) :
    Except String (String × String × Option String) :=
  if emailValid b.email then
    if b.password.length < 8 then
      Except.error "Password must be at least 8 characters"
    else
      Except.ok (b.email, b.password, b.name)
  else
    Except.error "Invalid email address"

/-- The minimal user projection carried by the session. -/
structure SessionUser where
  id : Nat
  email : String
  name : Option String
deriving DecidableEq

/-- The user object returned by the login endpoint (includes createdAt). -/
structure LoginUserView where
  id : Nat
  email : String
  name : Option String
  createdAt : Nat
deriving DecidableEq

/-- The effect of a successful login: the session that was set and the
user object of the response body. -/
structure LoginOk where
  session : SessionUser
  user : LoginUserView
deriving DecidableEq

/-- server/api/auth/login.post.ts: validate the body, look up the user
by email; a missing user, a null digest and a failed verification all
raise the same 401 Invalid credentials; on success set the session and
return the user. -/
def loginPost (db : DB) (b : LoginBody) : Except ApiError LoginOk :=
  match loginSchemaSafeParse b with
  | Except.error msg => Except.error ⟨400, msg⟩
  | Except.ok (email, password) =>
    match db.findUserByEmail email with
    | none => Except.error ⟨401, "Invalid credentials"⟩
    | some user =>
      match user.password with
      | none => Except.error ⟨401, "Invalid credentials"⟩
      | some digest =>
        if verifyPassword digest password then
          Except.ok ⟨⟨user.id, user.email, user.name⟩,
                     ⟨user.id, user.email, user.name, user.createdAt⟩⟩
        else
          Except.error ⟨401, "Invalid credentials"⟩

/-- The user record selected by register.post.ts
(select id, email, name, createdAt). -/
structure RegisterUserView where
  id : Nat
  email : String
  name : Option String
  createdAt : Nat
deriving DecidableEq

/-- server/api/auth/register.post.ts: validate the body (400 on
failure), reject an existing email with 409, otherwise hash the
password, create the User row and return the selected projection.
The salt argument feeds the randomness of the hashing primitive. -/
def registerPost (db : DB) (salt : Nat) (b : RegisterBody) :
    Except ApiError RegisterUserView × DB :=
  match registerSchemaSafeParse b with
  | Except.error msg => (Except.error ⟨400, msg⟩, db)
  | Except.ok (email, password, name) =>
    match db.findUserByEmail email with
    | some _ => (Except.error ⟨409, "User already exists"⟩, db)
    | none =>
      let hashed := hashPassword salt password
      let user : User := ⟨db.nextUserId, email, name, some hashed, db.now⟩
      let db2 : DB := { db with users := db.users ++ [user],
                                nextUserId := db.nextUserId + 1 }
      (Except.ok ⟨user.id, user.email, user.name, user.createdAt⟩, db2)

/-- server/api/auth/[...].ts, credentials provider authorize: missing
fields, unknown email, null digest and failed comparison all return
null; on success return the {id, email, name} identity. -/
def credentialsAuthorize (db : DB) (email password : Option String) :
    Option SessionUser :=
  match email, password with
  | some e, some p =>
    if e = "" ∨ p = "" then none
    else
      match db.findUserByEmail e with
      | none => none
      | some user =>
        match user.password with
        | none => none
        | some digest =>
          if verifyPassword digest p then
            some ⟨user.id, user.email, user.name⟩
          else
            none
  | _, _ => none

/-- The relying-party id constant of the handlers: branches on
NODE_ENV being production. -/
def rpID (production : Bool) : String :=
  if production then "your-domain.com" else "localhost"

/-- The expected origin constant of the handlers. -/
def origin (production : Bool) : String :=
  if production then "https://your-domain.com" else "http://localhost:3000"

/-- A parsed WebAuthn assertion as seen by the verification primitive:
the credential identifier it names, the challenge and origin of its
client data, the relying-party id it was produced for, whether its
signature is valid for the public key of the credential (abstracting the
cryptography), and the signature counter it reports. -/
structure AssertionResponse where
  id : List Nat
  challenge : String
  origin : String
  rpID : String
  sigValid : Bool
  newCounter : Nat
deriving DecidableEq

/-- The authenticationInfo part of a verification result. -/
structure AuthenticationInfo where
  newCounter : Nat
deriving DecidableEq

/-- The result of the assertion-verification primitive. -/
structure AuthVerification where
  verified : Bool
  authenticationInfo : AuthenticationInfo
deriving DecidableEq

/-- Modelled from the spec: @simplewebauthn/server
verifyAuthenticationResponse, the trusted assertion-verification
primitive verifyAssertion(...) -> {verified, newCounter}. It checks the
challenge, origin, relying-party id and signature, and rejects unless
its internally-computed new counter value is strictly greater than the
stored counter (clone detection); the reported newCounter is the one
carried by the assertion. -/
def verifyAuthenticationResponse (resp : AssertionResponse)
    (expectedChallenge expectedOrigin expectedRPID : String)
    (auth : Authenticator) : AuthVerification :=
  let ok := resp.sigValid && resp.challenge == expectedChallenge &&
    resp.origin == expectedOrigin && resp.rpID == expectedRPID &&
    decide (auth.counter < resp.newCounter)
  ⟨ok, ⟨resp.newCounter⟩⟩

/-- server/api/auth/[...].ts, webauthn provider authorize: guard the
two credential fields, look up the Authenticator by the credential
identifier of the response (joined with its owning User), run the
verification primitive against the stored credential; on success
overwrite the stored counter with the reported new counter and return
the identity of the owning user; on any failure return null with the
database untouched. The response arrives already JSON-parsed. -/
def webauthnAuthorize (production : Bool) (db : DB)
    (credentials : Option (AssertionResponse × String)) :
    Option SessionUser × DB :=
  match credentials with
  | none => (none, db)
  | some (resp, challenge) =>
    if challenge = "" then (none, db)
    else
      match db.findAuthenticator resp.id with
      | none => (none, db)
      | some a =>
        match db.findUserById a.userId with
        | none => (none, db)
        | some u =>
          let v := verifyAuthenticationResponse resp challenge
            (origin production) (rpID production) a
          if v.verified then
            let updated := db.authenticators.map (fun x =>
              if x.credentialID = a.credentialID then
                { x with counter := v.authenticationInfo.newCounter }
              else x)
            let db2 : DB := { db with authenticators := updated }
            (some ⟨u.id, u.email, u.name⟩, db2)
          else
            (none, db)

/-- A parsed WebAuthn attestation as seen by the registration
verification primitive: challenge/origin of its client data, the
relying-party id, whether the attestation itself is valid (abstracting
the cryptography), and the credential data it carries — identifier,
public key, initial counter — plus the transport hints of the client
response. -/
structure AttestationResponse where
  challenge : String
  origin : String
  rpID : String
  attValid : Bool
  credentialID : List Nat
  credentialPublicKey : List Nat
  counter : Nat
  transports : Option (List String)
deriving DecidableEq

/-- The registrationInfo part of a registration verification result. -/
structure RegistrationInfo where
  credentialID : List Nat
  credentialPublicKey : List Nat
  counter : Nat
deriving DecidableEq

/-- The result of the attestation-verification primitive. -/
structure RegVerification where
  verified : Bool
  registrationInfo : Option RegistrationInfo
deriving DecidableEq

/-- Modelled from the spec: @simplewebauthn/server
verifyRegistrationResponse, the trusted attestation-verification
primitive verifyAttestation(...) -> {verified, publicKey, counter}: it
checks the challenge, origin, relying-party id and attestation, and on
success extracts the credential identifier, public key and counter
from the attestation. -/
def verifyRegistrationResponse (resp : AttestationResponse)
    (expectedChallenge expectedOrigin expectedRPID : String) :
    RegVerification :=
  if resp.attValid && resp.challenge == expectedChallenge &&
      resp.origin == expectedOrigin && resp.rpID == expectedRPID then
    ⟨true, some ⟨resp.credentialID, resp.credentialPublicKey, resp.counter⟩⟩
  else
    ⟨false, none⟩

/-- The body of a verify-registration request. -/
structure VerifyRegistrationBody where
  userID : Option Nat
  response : Option AttestationResponse
  expectedChallenge : Option String
deriving DecidableEq

/-- The success response of verify-registration: the created
row id of the created authenticator and credential identifier. -/
structure VerifyRegistrationOk where
  success : Bool
  verified : Bool
  authenticatorId : Nat
  credentialID : List Nat
deriving DecidableEq

/-- server/api/auth/webauthn/verify-registration.post.ts: guard the
three fields (400), look up the user (404), run the attestation
verification (400 on failure), then persist a new Authenticator row
whose credential identifier, public key and counter come from the
verification result and whose transports come from the client
response (defaulting to the empty list). -/
def verifyRegistrationPost (production : Bool) (db : DB)
    (b : VerifyRegistrationBody) :
    Except ApiError VerifyRegistrationOk × DB :=
  match b.userID, b.response, b.expectedChallenge with
  | some userID, some resp, some expectedChallenge =>
    if expectedChallenge = "" then
      (Except.error ⟨400, "User ID, response, and expected challenge are required"⟩, db)
    else
      match db.findUserById userID with
      | none => (Except.error ⟨404, "User not found"⟩, db)
      | some _ =>
        let v := verifyRegistrationResponse resp expectedChallenge
          (origin production) (rpID production)
        match v.registrationInfo with
        | none => (Except.error ⟨400, "Registration verification failed"⟩, db)
        | some ri =>
          if v.verified then
            let a : Authenticator := ⟨db.nextAuthenticatorId, ri.credentialID,
              ri.credentialPublicKey, ri.counter,
              resp.transports.getD [], userID⟩
            let db2 : DB := { db with
              authenticators := db.authenticators ++ [a],
              nextAuthenticatorId := db.nextAuthenticatorId + 1 }
            (Except.ok ⟨true, true, a.id, a.credentialID⟩, db2)
          else
            (Except.error ⟨400, "Registration verification failed"⟩, db)
  | _, _, _ =>
    (Except.error ⟨400, "User ID, response, and expected challenge are required"⟩, db)

/-- An allowCredentials entry built from a stored Authenticator. -/
structure AllowCredential where
  id : List Nat
  type : String
  transports : List String
deriving DecidableEq

/-- An authentication-options payload as produced by the options
generator. -/
structure AuthnOptions where
  challenge : String
  rpID : String
  userVerification : String
  allowCredentials : Option (List AllowCredential)
deriving DecidableEq

/-- Modelled from the spec: @simplewebauthn/server
generateAuthenticationOptions — packages a fresh random challenge
(passed in as the randomness), the relying-party id, the
user-verification preference and the optional allow-list. -/
def generateAuthenticationOptions (challenge rp uv : String)
    (allowCredentials : Option (List AllowCredential)) : AuthnOptions :=
  ⟨challenge, rp, uv, allowCredentials⟩

/-- The response of auth-options: the options payload plus its
challenge echoed at top level. -/
structure AuthOptionsOk where
  options : AuthnOptions
  challenge : String
deriving DecidableEq

/-- server/api/auth/webauthn/auth-options.post.ts: when a (truthy)
userEmail resolves to a user owning at least one Authenticator, build
an allow-list from the credentials of that user; otherwise leave
allowCredentials undefined; always generate fresh options. -/
def authOptionsPost (production : Bool) (db : DB) (challenge : String)
    (userEmail : Option String) : AuthOptionsOk :=
  let allowCredentials : Option (List AllowCredential) :=
    match userEmail with
    | some e =>
      if e = "" then none
      else
        match db.findUserByEmail e with
        | some u =>
          let auths := db.authenticators.filter (fun a => a.userId = u.id)
          if auths.length > 0 then
            some (auths.map (fun a => ⟨a.credentialID, "public-key", a.transports⟩))
          else none
        | none => none
    | none => none
  let options := generateAuthenticationOptions challenge (rpID production)
    "preferred" allowCredentials
  ⟨options, options.challenge⟩

/-- A JSON value, used to state the exact field lists of response
bodies. -/
inductive Json where
  | str (s : String)
  | num (n : Nat)
  | null
  | obj (fields : List (String × Json))

/-- Serialization of an optional display name. -/
def nameJson : Option String → Json
  | some n => Json.str n
  | none => Json.null

/-- The response body of a successful registration, as register.post.ts
serializes it: the selected user record under the user key — id, email,
name and createdAt. -/
def registerResponseJson (r : RegisterUserView) : Json :=
  Json.obj [("user", Json.obj [("id", Json.num r.id),
    ("email", Json.str r.email), ("name", nameJson r.name),
    ("createdAt", Json.num r.createdAt)])]

/-- Stated from the words of the spec, for comparison with the
response: the shape the spec table gives for a successful
registration, a user object holding exactly id, email and name. -/
def specRegisterResponseJson (id : Nat) (email : String)
    (name : Option String) : Json :=
  Json.obj [("user", Json.obj [("id", Json.num id),
    ("email", Json.str email), ("name", nameJson name)])]

/-! ## Theorems -/

/-- Claim C1: for every password-login request, if no User row has the
given email, or the stored password digest of the matching User is null, or
the digest does not verify against the supplied password, the
operation fails with the single generic InvalidCredentials error —
status 401 and message Invalid credentials in all three cases — and
the credentials-provider authorize likewise returns null, so the three
failure causes are indistinguishable to the caller. -/
theorem loginPost_invalid_credentials_uniform (db : DB) (b : LoginBody)
    (email password : String)
    (hparse : loginSchemaSafeParse b = Except.ok (email, password))
    (hfail : db.findUserByEmail email = none ∨
      (∃ u, db.findUserByEmail email = some u ∧ u.password = none) ∨
      (∃ u d, db.findUserByEmail email = some u ∧ u.password = some d ∧
        verifyPassword d password = false)) :
    loginPost db b = Except.error ⟨401, "Invalid credentials"⟩ ∧
    credentialsAuthorize db (some email) (some password) = none := by
  constructor
  · rcases hfail with h | ⟨u, hu, hp⟩ | ⟨u, d, hu, hd, hv⟩
    · simp [loginPost, hparse, h]
    · simp [loginPost, hparse, hu, hp]
    · simp [loginPost, hparse, hu, hd, hv]
  · by_cases he : email = "" ∨ password = ""
    · simp [credentialsAuthorize, he]
    · rcases hfail with h | ⟨u, hu, hp⟩ | ⟨u, d, hu, hd, hv⟩
      · simp [credentialsAuthorize, he, h]
      · simp [credentialsAuthorize, he, hu, hp]
      · simp [credentialsAuthorize, he, hu, hd, hv]

/-- Witness for C1 at a concrete input: an empty user table, a valid
email and any password fall into the unknown-email case. -/
theorem loginPost_invalid_credentials_uniform_witness :
    loginPost ⟨[], [], 1, 1, 0⟩
        ⟨some (JVal.str "a@b.com"), some (JVal.str "pw")⟩ =
      Except.error ⟨401, "Invalid credentials"⟩ ∧
    credentialsAuthorize ⟨[], [], 1, 1, 0⟩ (some "a@b.com") (some "pw") = none :=
  loginPost_invalid_credentials_uniform ⟨[], [], 1, 1, 0⟩
    ⟨some (JVal.str "a@b.com"), some (JVal.str "pw")⟩ "a@b.com" "pw"
    (by decide) (Or.inl (by decide))

/-- Claim C6 counterexample: with a User row already present for
a@b.com, a second registration with that email but a five-character
password fails with 400 Password must be at least 8 characters, not
with 409 User already exists — body validation runs before the
duplicate check. -/
theorem registerPost_duplicate_not_always_conflict :
    (DB.mk [⟨1, "a@b.com", none, some ⟨0, "password123"⟩, 0⟩] [] 2 1 0).findUserByEmail
        "a@b.com" = some ⟨1, "a@b.com", none, some ⟨0, "password123"⟩, 0⟩ ∧
    (registerPost (DB.mk [⟨1, "a@b.com", none, some ⟨0, "password123"⟩, 0⟩] [] 2 1 0)
        0 ⟨"a@b.com", "short", none⟩).1 =
      Except.error ⟨400, "Password must be at least 8 characters"⟩ ∧
    (registerPost (DB.mk [⟨1, "a@b.com", none, some ⟨0, "password123"⟩, 0⟩] [] 2 1 0)
        0 ⟨"a@b.com", "short", none⟩).1 ≠
      Except.error ⟨409, "User already exists"⟩ := by
  refine ⟨by decide, by decide, by decide⟩

/-- Claim C6 as amended: for every email for which a User row already
exists, a second registration attempt with that email that passes body
validation always fails with 409 User already exists, regardless of
the (valid) password or name supplied, and the database is unchanged. -/
theorem registerPost_duplicate_conflict (db : DB) (salt : Nat) (b : RegisterBody)
    (hparse : (registerSchemaSafeParse b).isOk = true)
    (u : User) (hex : db.findUserByEmail b.email = some u) :
    registerPost db salt b = (Except.error ⟨409, "User already exists"⟩, db) := by
  by_cases h1 : emailValid b.email
  · by_cases h2 : b.password.length < 8
    · simp [registerSchemaSafeParse, h1, h2, Except.isOk, Except.toBool] at hparse
    · simp [registerPost, registerSchemaSafeParse, h1, h2, hex]
  · simp [registerSchemaSafeParse, h1, Except.isOk, Except.toBool] at hparse

/-- Witness for the amended C6 theorem: a duplicate registration for
a@b.com with a different, valid password and a name still gets 409. -/
theorem registerPost_duplicate_conflict_witness :
    registerPost (DB.mk [⟨1, "a@b.com", none, some ⟨0, "password123"⟩, 0⟩] [] 2 1 0)
        7 ⟨"a@b.com", "otherpassword", some "Someone"⟩ =
      (Except.error ⟨409, "User already exists"⟩,
       DB.mk [⟨1, "a@b.com", none, some ⟨0, "password123"⟩, 0⟩] [] 2 1 0) :=
  registerPost_duplicate_conflict
    (DB.mk [⟨1, "a@b.com", none, some ⟨0, "password123"⟩, 0⟩] [] 2 1 0)
    7 ⟨"a@b.com", "otherpassword", some "Someone"⟩ (by decide)
    ⟨1, "a@b.com", none, some ⟨0, "password123"⟩, 0⟩ (by decide)

/-- Claim C7: password registration rejects with a 400 ValidationError
every request whose email is not a syntactically valid address or
whose password is shorter than 8 characters; the database is returned
unchanged and the response is the same for every database state and
salt, so the rejection happens before any user lookup or creation. -/
theorem registerPost_validation_first (db db2 : DB) (salt salt2 : Nat)
    (b : RegisterBody)
    (h : emailValid b.email = false ∨ b.password.length < 8) :
    ∃ msg, registerPost db salt b = (Except.error ⟨400, msg⟩, db) ∧
      registerPost db2 salt2 b = (Except.error ⟨400, msg⟩, db2) := by
  by_cases h1 : emailValid b.email
  · rcases h with h | h
    · rw [h1] at h; cases h
    · exact ⟨"Password must be at least 8 characters",
        by simp [registerPost, registerSchemaSafeParse, h1, h],
        by simp [registerPost, registerSchemaSafeParse, h1, h]⟩
  · exact ⟨"Invalid email address",
      by simp [registerPost, registerSchemaSafeParse, h1],
      by simp [registerPost, registerSchemaSafeParse, h1]⟩

/-- Witness for C7: a seven-character password is rejected with 400 on
two different database states, leaving both unchanged. -/
theorem registerPost_validation_first_witness :
    ∃ msg,
      registerPost (DB.mk [] [] 1 1 0) 0 ⟨"a@b.com", "seven77", none⟩ =
        (Except.error ⟨400, msg⟩, DB.mk [] [] 1 1 0) ∧
      registerPost (DB.mk [⟨1, "a@b.com", none, none, 0⟩] [] 2 1 9) 3
          ⟨"a@b.com", "seven77", none⟩ =
        (Except.error ⟨400, msg⟩, DB.mk [⟨1, "a@b.com", none, none, 0⟩] [] 2 1 9) :=
  registerPost_validation_first (DB.mk [] [] 1 1 0)
    (DB.mk [⟨1, "a@b.com", none, none, 0⟩] [] 2 1 9) 0 3
    ⟨"a@b.com", "seven77", none⟩ (Or.inr (by decide))

/-- Helper: find? commutes with a map that preserves the predicate. -/
theorem find?_map_preserving {α : Type} (p : α → Bool) (f : α → α)
    (hpf : ∀ x, p (f x) = p x) (l : List α) (a : α)
    (h : l.find? p = some a) : (l.map f).find? p = some (f a) := by
  induction l with
  | nil => cases h
  | cons x xs ih =>
    rw [List.map_cons]
    by_cases hx : p x = true
    · rw [List.find?_cons_of_pos _ hx] at h
      injection h with h
      subst h
      exact List.find?_cons_of_pos _ (by rw [hpf]; exact hx)
    · rw [List.find?_cons_of_neg _ hx] at h
      rw [List.find?_cons_of_neg _ (by rw [hpf]; exact hx)]
      exact ih h

/-- Claim C2: for every stored Authenticator and every assertion whose
reported new counter is at most the stored counter, the webauthn
authorize fails (returns null, so no session is established) and the
database — in particular the stored counter — is left unchanged. -/
theorem webauthnAuthorize_stale_counter_rejected (production : Bool) (db : DB)
    (resp : AssertionResponse) (challenge : String) (a : Authenticator)
    (hfind : db.findAuthenticator resp.id = some a)
    (hctr : resp.newCounter ≤ a.counter) :
    webauthnAuthorize production db (some (resp, challenge)) = (none, db) := by
  by_cases hch : challenge = ""
  · simp [webauthnAuthorize, hch]
  · rcases hu : db.findUserById a.userId with _ | u
    · simp [webauthnAuthorize, hch, hfind, hu]
    · simp [webauthnAuthorize, hch, hfind, hu, verifyAuthenticationResponse,
        Nat.not_lt.mpr hctr]

/-- Witness for C2: a stored counter of 5 and an otherwise valid
assertion reporting counter 5 is rejected and leaves the database
unchanged. -/
theorem webauthnAuthorize_stale_counter_rejected_witness :
    webauthnAuthorize false
        (DB.mk [⟨1, "a@b.com", none, none, 0⟩] [⟨1, [1, 2], [3], 5, ["usb"], 1⟩] 2 2 0)
        (some (⟨[1, 2], "ch", "http://localhost:3000", "localhost", true, 5⟩, "ch")) =
      (none, DB.mk [⟨1, "a@b.com", none, none, 0⟩] [⟨1, [1, 2], [3], 5, ["usb"], 1⟩] 2 2 0) :=
  webauthnAuthorize_stale_counter_rejected false
    (DB.mk [⟨1, "a@b.com", none, none, 0⟩] [⟨1, [1, 2], [3], 5, ["usb"], 1⟩] 2 2 0)
    ⟨[1, 2], "ch", "http://localhost:3000", "localhost", true, 5⟩ "ch"
    ⟨1, [1, 2], [3], 5, ["usb"], 1⟩ (by decide) (by decide)

/-- Claim C3: for every stored Authenticator, webauthn authorize with a
valid assertion whose new counter is strictly greater than the stored
counter succeeds returning the identity id/email/name of the owning
User, and the counter of the stored row is overwritten with exactly the
verifier-reported new counter. -/
theorem webauthnAuthorize_success_updates_counter (production : Bool) (db : DB)
    (resp : AssertionResponse) (challenge : String) (a : Authenticator) (u : User)
    (hch : challenge ≠ "")
    (hfind : db.findAuthenticator resp.id = some a)
    (huser : db.findUserById a.userId = some u)
    (hsig : resp.sigValid = true)
    (hrch : resp.challenge = challenge)
    (horg : resp.origin = origin production)
    (hrp : resp.rpID = rpID production)
    (hctr : a.counter < resp.newCounter) :
    (webauthnAuthorize production db (some (resp, challenge))).1 =
      some ⟨u.id, u.email, u.name⟩ ∧
    (webauthnAuthorize production db (some (resp, challenge))).2.findAuthenticator
        resp.id = some { a with counter := resp.newCounter } := by
  have hupd : webauthnAuthorize production db (some (resp, challenge)) =
      (some ⟨u.id, u.email, u.name⟩,
       { db with authenticators := db.authenticators.map (fun x =>
           if x.credentialID = a.credentialID then
             { x with counter := resp.newCounter }
           else x) }) := by
    simp [webauthnAuthorize, hch, hfind, huser, verifyAuthenticationResponse,
      hsig, hrch, horg, hrp, hctr]
  rw [hupd]
  refine ⟨rfl, ?_⟩
  have hfind2 : db.authenticators.find?
      (fun x => x.credentialID = resp.id) = some a := hfind
  have hfound := find?_map_preserving
    (fun x => x.credentialID = resp.id)
    (fun x => if x.credentialID = a.credentialID then
      { x with counter := resp.newCounter } else x)
    (fun x => by by_cases hxa : x.credentialID = a.credentialID <;> simp [hxa])
    db.authenticators a hfind2
  simpa [DB.findAuthenticator] using hfound

/-- Witness for C3: stored counter 5, assertion reporting 6 with the
development origin and relying-party id; the login succeeds for the
owning user and the stored counter becomes 6. -/
theorem webauthnAuthorize_success_updates_counter_witness :
    (webauthnAuthorize false
        (DB.mk [⟨1, "a@b.com", some "Ann", none, 0⟩] [⟨1, [1, 2], [3], 5, ["usb"], 1⟩] 2 2 0)
        (some (⟨[1, 2], "ch", "http://localhost:3000", "localhost", true, 6⟩, "ch"))).1 =
      some ⟨1, "a@b.com", some "Ann"⟩ ∧
    ((webauthnAuthorize false
        (DB.mk [⟨1, "a@b.com", some "Ann", none, 0⟩] [⟨1, [1, 2], [3], 5, ["usb"], 1⟩] 2 2 0)
        (some (⟨[1, 2], "ch", "http://localhost:3000", "localhost", true, 6⟩, "ch"))).2).findAuthenticator
        [1, 2] = some ⟨1, [1, 2], [3], 6, ["usb"], 1⟩ :=
  webauthnAuthorize_success_updates_counter false
    (DB.mk [⟨1, "a@b.com", some "Ann", none, 0⟩] [⟨1, [1, 2], [3], 5, ["usb"], 1⟩] 2 2 0)
    ⟨[1, 2], "ch", "http://localhost:3000", "localhost", true, 6⟩ "ch"
    ⟨1, [1, 2], [3], 5, ["usb"], 1⟩ ⟨1, "a@b.com", some "Ann", none, 0⟩
    (by decide) (by decide) (by decide) rfl rfl rfl rfl (by decide)

/-- Claim C4: whenever WebAuthn registration verification succeeds for
an existing user, the persisted Authenticator row takes its credential
identifier, public key and counter exactly from the verification
result (the counter is the reported value, not a hardcoded 0), and its
transports from the client response. -/
theorem verifyRegistrationPost_persists_verification_result
    (production : Bool) (db : DB) (userID : Nat) (resp : AttestationResponse)
    (challenge : String) (u : User)
    (hch : challenge ≠ "")
    (huser : db.findUserById userID = some u)
    (hval : resp.attValid = true)
    (hrch : resp.challenge = challenge)
    (horg : resp.origin = origin production)
    (hrp : resp.rpID = rpID production) :
    verifyRegistrationPost production db ⟨some userID, some resp, some challenge⟩ =
      (Except.ok ⟨true, true, db.nextAuthenticatorId, resp.credentialID⟩,
       { db with
         authenticators := db.authenticators ++
           [⟨db.nextAuthenticatorId, resp.credentialID, resp.credentialPublicKey,
             resp.counter, resp.transports.getD [], userID⟩],
         nextAuthenticatorId := db.nextAuthenticatorId + 1 }) := by
  simp [verifyRegistrationPost, hch, huser, verifyRegistrationResponse,
    hval, hrch, horg, hrp]

/-- Witness for C4: an attestation reporting counter 42 yields a stored
row with counter 42 and the transports of the response. -/
theorem verifyRegistrationPost_persists_verification_result_witness :
    verifyRegistrationPost false (DB.mk [⟨1, "a@b.com", none, none, 0⟩] [] 2 1 0)
        ⟨some 1,
         some ⟨"ch", "http://localhost:3000", "localhost", true, [9, 9], [7], 42,
           some ["usb", "nfc"]⟩,
         some "ch"⟩ =
      (Except.ok ⟨true, true, 1, [9, 9]⟩,
       DB.mk [⟨1, "a@b.com", none, none, 0⟩]
         [⟨1, [9, 9], [7], 42, ["usb", "nfc"], 1⟩] 2 2 0) :=
  verifyRegistrationPost_persists_verification_result false
    (DB.mk [⟨1, "a@b.com", none, none, 0⟩] [] 2 1 0) 1
    ⟨"ch", "http://localhost:3000", "localhost", true, [9, 9], [7], 42,
      some ["usb", "nfc"]⟩ "ch" ⟨1, "a@b.com", none, none, 0⟩
    (by decide) (by decide) rfl rfl rfl rfl

/-- Claim C5: for every valid register body with no pre-existing User
for its email, registration succeeds and an immediate password login
with the same email and password succeeds, returning a user whose id
equals the one in the registration response (the round trip through
hashPassword and verifyPassword). -/
theorem registerPost_loginPost_roundtrip (db : DB) (salt : Nat) (b : RegisterBody)
    (hv : emailValid b.email = true) (hlen : ¬ b.password.length < 8)
    (hnew : db.findUserByEmail b.email = none) :
    ∃ (r : RegisterUserView) (ok : LoginOk),
      (registerPost db salt b).1 = Except.ok r ∧
      loginPost (registerPost db salt b).2
        ⟨some (JVal.str b.email), some (JVal.str b.password)⟩ = Except.ok ok ∧
      ok.user.id = r.id := by
  have hnew2 : db.users.find? (fun u => u.email = b.email) = none := hnew
  refine ⟨⟨db.nextUserId, b.email, b.name, db.now⟩,
    ⟨⟨db.nextUserId, b.email, b.name⟩, ⟨db.nextUserId, b.email, b.name, db.now⟩⟩,
    ?_, ?_, rfl⟩
  · simp [registerPost, registerSchemaSafeParse, hv, hlen, hnew]
  · simp [registerPost, registerSchemaSafeParse, hv, hlen, hnew, loginPost,
      loginSchemaSafeParse, DB.findUserByEmail, List.find?_append, hnew2,
      hashPassword, verifyPassword]

/-- Witness for C5: registering alice@example.com with Password123 on
an empty table and logging in with the same pair returns matching ids. -/
theorem registerPost_loginPost_roundtrip_witness :
    ∃ (r : RegisterUserView) (ok : LoginOk),
      (registerPost (DB.mk [] [] 1 1 0) 3
        ⟨"alice@example.com", "Password123", some "Alice"⟩).1 = Except.ok r ∧
      loginPost (registerPost (DB.mk [] [] 1 1 0) 3
          ⟨"alice@example.com", "Password123", some "Alice"⟩).2
        ⟨some (JVal.str "alice@example.com"), some (JVal.str "Password123")⟩ =
        Except.ok ok ∧
      ok.user.id = r.id :=
  registerPost_loginPost_roundtrip (DB.mk [] [] 1 1 0) 3
    ⟨"alice@example.com", "Password123", some "Alice"⟩
    (by decide) (by decide) (by decide)

/-- Claim C8 counterexample: the response body of a successful registration
is not exactly a user object with only id, email and name — the
serialized user object also carries createdAt (the handler selects it
and returns the selected record). -/
theorem registerPost_response_not_spec_shape :
    (registerPost (DB.mk [] [] 1 1 7) 0 ⟨"a@b.com", "password123", some "Ann"⟩).1 =
      Except.ok ⟨1, "a@b.com", some "Ann", 7⟩ ∧
    registerResponseJson ⟨1, "a@b.com", some "Ann", 7⟩ ≠
      specRegisterResponseJson 1 "a@b.com" (some "Ann") := by
  refine ⟨by decide, ?_⟩
  simp [registerResponseJson, specRegisterResponseJson, nameJson]

/-- Claim C8 as amended: a successful password registration responds
with exactly a user object holding id, email, name and createdAt of
the created user; the stored password digest never appears in the
response — the response body is a function of the request and the
id/clock state only, independent of the hashing salt that determines
the digest. -/
theorem registerPost_response_shape (db : DB) (salt salt2 : Nat)
    (b : RegisterBody) (r : RegisterUserView)
    (h : (registerPost db salt b).1 = Except.ok r) :
    r = ⟨db.nextUserId, b.email, b.name, db.now⟩ ∧
    (registerPost db salt b).1 = (registerPost db salt2 b).1 ∧
    registerResponseJson r = Json.obj [("user", Json.obj
      [("id", Json.num r.id), ("email", Json.str r.email),
       ("name", nameJson r.name), ("createdAt", Json.num r.createdAt)])] := by
  by_cases e1 : emailValid b.email
  · by_cases e2 : b.password.length < 8
    · simp [registerPost, registerSchemaSafeParse, e1, e2] at h
    · rcases e3 : db.findUserByEmail b.email with _ | u
      · simp [registerPost, registerSchemaSafeParse, e1, e2, e3] at h
        exact ⟨h.symm, by simp [registerPost, registerSchemaSafeParse, e1, e2, e3], rfl⟩
      · simp [registerPost, registerSchemaSafeParse, e1, e2, e3] at h
  · simp [registerPost, registerSchemaSafeParse, e1] at h

/-- Witness for the amended C8 theorem: a concrete successful
registration, checked at salts 0 and 9. -/
theorem registerPost_response_shape_witness :
    (⟨1, "a@b.com", some "Ann", 7⟩ : RegisterUserView) =
      ⟨(DB.mk [] [] 1 1 7).nextUserId, "a@b.com", some "Ann", (DB.mk [] [] 1 1 7).now⟩ ∧
    (registerPost (DB.mk [] [] 1 1 7) 0 ⟨"a@b.com", "password123", some "Ann"⟩).1 =
      (registerPost (DB.mk [] [] 1 1 7) 9 ⟨"a@b.com", "password123", some "Ann"⟩).1 ∧
    registerResponseJson ⟨1, "a@b.com", some "Ann", 7⟩ = Json.obj [("user", Json.obj
      [("id", Json.num 1), ("email", Json.str "a@b.com"),
       ("name", nameJson (some "Ann")), ("createdAt", Json.num 7)])] :=
  registerPost_response_shape (DB.mk [] [] 1 1 7) 0 9
    ⟨"a@b.com", "password123", some "Ann"⟩ ⟨1, "a@b.com", some "Ann", 7⟩ (by decide)

/-- Claim C9: an auth-options request whose email resolves to a user
with zero Authenticators succeeds, returns a payload whose
allowCredentials is omitted, carries the fresh challenge, and equals
the response of the discoverable no-email flow. -/
theorem authOptionsPost_no_authenticators (production : Bool) (db : DB)
    (challenge e : String) (u : User)
    (hu : db.findUserByEmail e = some u)
    (hz : db.authenticators.filter (fun a => a.userId = u.id) = []) :
    authOptionsPost production db challenge (some e) =
      authOptionsPost production db challenge none ∧
    (authOptionsPost production db challenge (some e)).options.allowCredentials =
      none ∧
    (authOptionsPost production db challenge (some e)).challenge = challenge := by
  by_cases he : e = ""
  · refine ⟨?_, ?_, ?_⟩ <;>
      simp [authOptionsPost, he, generateAuthenticationOptions]
  · refine ⟨?_, ?_, ?_⟩ <;>
      simp [authOptionsPost, he, hu, hz, generateAuthenticationOptions]

/-- Witness for C9: the only stored authenticator belongs to another
user, so the user of that email has zero authenticators. -/
theorem authOptionsPost_no_authenticators_witness :
    authOptionsPost false
        (DB.mk [⟨1, "a@b.com", none, none, 0⟩] [⟨1, [5], [6], 0, [], 2⟩] 2 2 0)
        "c" (some "a@b.com") =
      authOptionsPost false
        (DB.mk [⟨1, "a@b.com", none, none, 0⟩] [⟨1, [5], [6], 0, [], 2⟩] 2 2 0)
        "c" none ∧
    (authOptionsPost false
        (DB.mk [⟨1, "a@b.com", none, none, 0⟩] [⟨1, [5], [6], 0, [], 2⟩] 2 2 0)
        "c" (some "a@b.com")).options.allowCredentials = none ∧
    (authOptionsPost false
        (DB.mk [⟨1, "a@b.com", none, none, 0⟩] [⟨1, [5], [6], 0, [], 2⟩] 2 2 0)
        "c" (some "a@b.com")).challenge = "c" :=
  authOptionsPost_no_authenticators false
    (DB.mk [⟨1, "a@b.com", none, none, 0⟩] [⟨1, [5], [6], 0, [], 2⟩] 2 2 0)
    "c" "a@b.com" ⟨1, "a@b.com", none, none, 0⟩ (by decide) (by decide)

/-- Helper: every login body either parses to its email/password
strings, or fails with some message exactly when the email field is
not a string passing the address check or the password field is not a
string. -/
theorem loginSchemaSafeParse_cases (b : LoginBody) :
    (∃ s p, b.email = some (JVal.str s) ∧ emailValid s = true ∧
      b.password = some (JVal.str p) ∧
      loginSchemaSafeParse b = Except.ok (s, p)) ∨
    (∃ msg, loginSchemaSafeParse b = Except.error msg ∧
      ¬ ((∃ s, b.email = some (JVal.str s) ∧ emailValid s = true) ∧
         (∃ p, b.password = some (JVal.str p)))) := by
  rcases b with ⟨be, bp⟩
  rcases be with _ | v
  · exact Or.inr ⟨"Required", by simp [loginSchemaSafeParse], by simp⟩
  · rcases v with s | n | bo | _
    · by_cases hs : emailValid s
      · rcases bp with _ | w
        · exact Or.inr ⟨"Required", by simp [loginSchemaSafeParse, hs], by simp⟩
        · rcases w with p | n2 | bo2 | _
          · exact Or.inl ⟨s, p, rfl, hs, rfl, by simp [loginSchemaSafeParse, hs]⟩
          · exact Or.inr ⟨"Expected string, received other",
              by simp [loginSchemaSafeParse, hs], by simp⟩
          · exact Or.inr ⟨"Expected string, received other",
              by simp [loginSchemaSafeParse, hs], by simp⟩
          · exact Or.inr ⟨"Expected string, received other",
              by simp [loginSchemaSafeParse, hs], by simp⟩
      · exact Or.inr ⟨"Invalid email address",
          by simp [loginSchemaSafeParse, hs], by simp [hs]⟩
    · exact Or.inr ⟨"Expected string, received other",
        by simp [loginSchemaSafeParse], by simp⟩
    · exact Or.inr ⟨"Expected string, received other",
        by simp [loginSchemaSafeParse], by simp⟩
    · exact Or.inr ⟨"Expected string, received other",
        by simp [loginSchemaSafeParse], by simp⟩

/-- Helper: once the body parses, the login endpoint never answers
with a 400: each later outcome is success or the 401 error. -/
theorem loginPost_parsed_no_400 (db : DB) (b : LoginBody) (s p : String)
    (hok : loginSchemaSafeParse b = Except.ok (s, p)) (m : String)
    (hm : loginPost db b = Except.error ⟨400, m⟩) : False := by
  unfold loginPost at hm
  rw [hok] at hm
  dsimp only at hm
  rcases hfind : db.findUserByEmail s with _ | u
  · rw [hfind] at hm
    simp at hm
  · rw [hfind] at hm
    dsimp only at hm
    rcases hpw : u.password with _ | d
    · rw [hpw] at hm
      simp at hm
    · rw [hpw] at hm
      dsimp only at hm
      by_cases hvp : verifyPassword d p
      · simp [hvp] at hm
      · simp [hvp] at hm

/-- Claim C10: the password-login endpoint rejects with 400 exactly
when the email field is not a string holding a syntactically valid
address or the password field is not a string; the password is
otherwise unconstrained, so for every valid email (over a database
whose stored digests respect the 8-character registration minimum) an
empty-string password passes validation, proceeds to the user and
digest lookup, and fails with the generic 401 Invalid credentials
rather than a validation error. -/
theorem loginPost_schema_exactness_empty_password (db : DB) (e : String)
    (he : emailValid e = true)
    (hdb : ∀ u ∈ db.users, u.email = e → ∀ d, u.password = some d →
      8 ≤ d.pw.length) :
    (∀ b : LoginBody, (∃ msg, loginPost db b = Except.error ⟨400, msg⟩) ↔
      ¬ ((∃ s, b.email = some (JVal.str s) ∧ emailValid s = true) ∧
         (∃ p, b.password = some (JVal.str p)))) ∧
    loginPost db ⟨some (JVal.str e), some (JVal.str "")⟩ =
      Except.error ⟨401, "Invalid credentials"⟩ := by
  constructor
  · intro b
    rcases loginSchemaSafeParse_cases b with
      ⟨s, p, hs, hsv, hp, hok⟩ | ⟨msg, herr, hno⟩
    · constructor
      · rintro ⟨m, hm⟩
        exact absurd hm (fun hm => loginPost_parsed_no_400 db b s p hok m hm)
      · intro hcon
        exact absurd ⟨⟨s, hs, hsv⟩, ⟨p, hp⟩⟩ hcon
    · constructor
      · intro _; exact hno
      · intro _
        exact ⟨msg, by simp [loginPost, herr]⟩
  · have hparse : loginSchemaSafeParse
        ⟨some (JVal.str e), some (JVal.str "")⟩ = Except.ok (e, "") := by
      simp [loginSchemaSafeParse, he]
    unfold loginPost
    rw [hparse]
    dsimp only
    rcases hfind : db.findUserByEmail e with _ | u
    · rfl
    · dsimp only
      have hfind2 : db.users.find? (fun u => u.email = e) = some u := hfind
      have hmem : u ∈ db.users := List.mem_of_find?_eq_some hfind2
      have hemail : u.email = e := by simpa using List.find?_some hfind2
      rcases hpw : u.password with _ | d
      · simp [hpw]
      · have hlen := hdb u hmem hemail d hpw
        have hvp : verifyPassword d "" = false := by
          simp only [verifyPassword, decide_eq_false_iff_not]
          intro hcon
          rw [hcon] at hlen
          exact absurd hlen (by decide)
        simp [hpw, hvp]

/-- Witness for C10: a single-user database whose digest came from an
8-character password; the characterization holds and the empty
password yields the 401. -/
theorem loginPost_schema_exactness_empty_password_witness :
    (∀ b : LoginBody,
      (∃ msg, loginPost
          (DB.mk [⟨1, "a@b.com", none, some ⟨0, "password"⟩, 0⟩] [] 2 1 0) b =
        Except.error ⟨400, msg⟩) ↔
      ¬ ((∃ s, b.email = some (JVal.str s) ∧ emailValid s = true) ∧
         (∃ p, b.password = some (JVal.str p)))) ∧
    loginPost (DB.mk [⟨1, "a@b.com", none, some ⟨0, "password"⟩, 0⟩] [] 2 1 0)
        ⟨some (JVal.str "a@b.com"), some (JVal.str "")⟩ =
      Except.error ⟨401, "Invalid credentials"⟩ :=
  loginPost_schema_exactness_empty_password
    (DB.mk [⟨1, "a@b.com", none, some ⟨0, "password"⟩, 0⟩] [] 2 1 0) "a@b.com"
    (by decide) (by decide)

end CuddlyNuxt
